import Mathlib

/-!
# Verification of the `nes` 6502 CPU core

Shallow embedding of `src/cpu/{mod,memory,operations,lifecycle}.rs`.

Conventions:
* `u8` / `u16` machine values are `Nat`s; truncation is explicit (`% 256`,
  `% 65536`) exactly where the Rust source truncates or wraps.
* The backing store `memory: [u8; 0xFFFF]` (a 65535-byte array, per
  `mod.rs`) is a function `Nat → Nat`; reads truncate with `% 256` to model
  the `u8` cell type.  Array indexing out of bounds is a Rust panic, so
  `mem_read` / `mem_write` return `Option`, with `none` for the panic.
* Non-wrapping Rust `u16` addition (plain `+`, which is a program error on
  overflow) is `checkedAddU16`, returning `none` on overflow.
* Fallible operations (those that can panic) return `Option CPU`.
-/

namespace Nes

/-- The 8 status flags of `bitflags! Flags` in `mod.rs`, one `Bool` per bit
(bit 0 = CARRY .. bit 7 = NEGATIVE). -/
structure Flags where
  carry : Bool
  zero : Bool
  noInterrupt : Bool
  decimal : Bool
  break1 : Bool
  break2 : Bool
  overflow : Bool
  negative : Bool
  deriving DecidableEq, Repr

/-- `Flags::from_bits_truncate(n)`: each named flag takes the corresponding
bit of `n`. -/
def Flags.fromBits (n : Nat) : Flags where
  carry := n.testBit 0
  zero := n.testBit 1
  noInterrupt := n.testBit 2
  decimal := n.testBit 3
  break1 := n.testBit 4
  break2 := n.testBit 5
  overflow := n.testBit 6
  negative := n.testBit 7

/-- The CPU state of `mod.rs`: accumulator `a`, status `flags`, program
counter `counter`, index registers `x`, `y`, and the byte array `memory`. -/
structure CPU where
  a : Nat
  flags : Flags
  counter : Nat
  x : Nat
  y : Nat
  memory : Nat → Nat

/-- Length of the Rust backing array `memory: [u8; 0xFFFF]` (one byte short
of the full 16-bit address space). -/
def memLen : Nat := 0xFFFF

/-- `mem_read` (`memory.rs`): `self.memory[addr as usize]`.  Indexing at or
past `memLen` is an out-of-bounds panic, hence `none`.  The read value is a
`u8`, hence `% 256`. -/
def mem_read (cpu : CPU) (addr : Nat) : Option Nat :=
  if addr < memLen then some (cpu.memory addr % 256) else none

/-- `mem_write` (`memory.rs`): `self.memory[addr as usize] = data`. -/
def mem_write (cpu : CPU) (addr : Nat) (data : Nat) : Option CPU :=
  if addr < memLen then
    some { cpu with memory := fun i => if i = addr then data % 256 else cpu.memory i }
  else
    none

/-- Rust `u16` addition with the plain `+` operator: overflow past
`0xFFFF` is a program error (a panic in debug builds), not a wrap. -/
def checkedAddU16 (a b : Nat) : Option Nat :=
  if a + b < 65536 then some (a + b) else none

/-- `mem_read_u16` (`memory.rs` lines 26-30): little-endian 16-bit read;
the high byte comes from `addr + 1` computed with non-wrapping `+`. -/
def mem_read_u16 (cpu : CPU) (addr : Nat) : Option Nat :=
  match mem_read cpu addr with
  | none => none
  | some low =>
    match checkedAddU16 addr 1 with
    | none => none
    | some hiAddr =>
      match mem_read cpu hiAddr with
      | none => none
      | some high => some ((high <<< 8) ||| low)

/-- `mem_write_u16` (`memory.rs`): little-endian 16-bit write, the high
byte to `addr + 1` computed with non-wrapping `+`. -/
def mem_write_u16 (cpu : CPU) (addr : Nat) (data : Nat) : Option CPU :=
  match mem_write cpu addr (data &&& 0xff) with
  | none => none
  | some cpu1 =>
    match checkedAddU16 addr 1 with
    | none => none
    | some hiAddr => mem_write cpu1 hiAddr ((data >>> 8) % 256)

/-- Modelled from the spec: `mem_read_incr` is called throughout
`operations.rs` and `lifecycle.rs` but its definition is missing from the
sources.  Per spec §4.3 (each fetch advances the program counter by one)
and §3 (the program counter wraps modulo 65536), and consistently with the
in-repo unit tests (`lda_loads_data` expects `counter` to move from
`0x8000` to `0x8001` after one immediate-operand fetch, and
`branch_branches` expects `0x800c` from `0x8000` with displacement `0x0a`),
it reads the byte at the given address and advances the program counter by
one, wrapping. -/
def mem_read_incr (cpu : CPU) (addr : Nat) : Option (Nat × CPU) :=
  match mem_read cpu addr with
  | none => none
  | some v => some (v, { cpu with counter := (cpu.counter + 1) % 65536 })

/-- The addressing modes of `memory.rs`. -/
inductive AddressingMode where
  | immediate
  | zeroPage
  | zeroPageX
  | zeroPageY
  | absolute
  | absoluteX
  | absoluteY
  | indirectX
  | indirectY
  deriving DecidableEq, Repr

/-- The addressing-mode resolver: `operand_address` from `memory.rs`
(the handlers in `operations.rs` call it under the name `get_oper_addr`,
whose definition is absent from the sources; `memory.rs`'s resolver is the
in-repo implementation of spec §4.1 and is embedded verbatim, with the
field names of the `mod.rs` CPU).  `u8` wrapping adds are `% 256`, `u16`
wrapping adds are `% 65536`. -/
def operand_address (cpu : CPU) (mode : AddressingMode) : Option Nat :=
  match mode with
  | .immediate => some cpu.counter
  | .zeroPage => mem_read cpu cpu.counter
  | .absolute => mem_read_u16 cpu cpu.counter
  | .zeroPageX =>
    match mem_read cpu cpu.counter with
    | none => none
    | some pos => some ((pos + cpu.x) % 256)
  | .zeroPageY =>
    match mem_read cpu cpu.counter with
    | none => none
    | some pos => some ((pos + cpu.y) % 256)
  | .absoluteX =>
    match mem_read_u16 cpu cpu.counter with
    | none => none
    | some base => some ((base + cpu.x) % 65536)
  | .absoluteY =>
    match mem_read_u16 cpu cpu.counter with
    | none => none
    | some base => some ((base + cpu.y) % 65536)
  | .indirectX =>
    match mem_read cpu cpu.counter with
    | none => none
    | some base =>
      let ptr := (base + cpu.x) % 256
      match mem_read cpu ptr with
      | none => none
      | some lo =>
        match mem_read cpu ((ptr + 1) % 256) with
        | none => none
        | some hi => some ((hi <<< 8) ||| lo)
  | .indirectY =>
    match mem_read cpu cpu.counter with
    | none => none
    | some base =>
      match mem_read cpu base with
      | none => none
      | some lo =>
        match mem_read cpu ((base + 1) % 256) with
        | none => none
        | some hi => some ((((hi <<< 8) ||| lo) + cpu.y) % 65536)

/-- `update_flags_zero_neg` (`operations.rs` lines 7-10): Zero iff the
value is zero, Negative iff bit 7 is set; no other flag is touched. -/
def update_flags_zero_neg (cpu : CPU) (val : Nat) : CPU :=
  { cpu with flags := { cpu.flags with
      zero := val == 0
      negative := (val &&& 0b10000000) != 0 } }

/-- `set_a` (`operations.rs`): assign the accumulator, then update
zero/negative from it. -/
def set_a (cpu : CPU) (value : Nat) : CPU :=
  update_flags_zero_neg { cpu with a := value } value

/-- `add_to_a` (`operations.rs` lines 22-43): widened sum of accumulator,
operand and carry bit; Carry iff the sum exceeds `0xff`; Overflow from the
two's-complement test on the truncated result against the old accumulator;
result funnelled through `set_a`. -/
def add_to_a (cpu : CPU) (data : Nat) : CPU :=
  let sum := cpu.a + data + (if cpu.flags.carry then 1 else 0)
  let result := sum % 256
  let cpu1 := { cpu with flags := { cpu.flags with
      carry := decide (sum > 0xff)
      overflow := ((data ^^^ result) &&& (result ^^^ cpu.a) &&& 0x80) != 0 } }
  set_a cpu1 result

/-- `adc` (`operations.rs`): resolve the operand address, fetch the operand
(advancing the program counter), add to the accumulator. -/
def adc (mode : AddressingMode) (cpu : CPU) : Option CPU :=
  match operand_address cpu mode with
  | none => none
  | some addr =>
    match mem_read_incr cpu addr with
    | none => none
    | some (param, cpu1) => some (add_to_a cpu1 param)

/-- `and` (`operations.rs`): bitwise AND of the accumulator with the
operand, stored through `set_a`. -/
def and (mode : AddressingMode) (cpu : CPU) : Option CPU :=
  match operand_address cpu mode with
  | none => none
  | some addr =>
    match mem_read_incr cpu addr with
    | none => none
    | some (param, cpu1) => some (set_a cpu1 (cpu1.a &&& param))

/-- `asl_on_accumulator` (`operations.rs` lines 78-82): Carry from bit 7 of
the accumulator, then the shifted accumulator through `set_a` (the `u8`
shift `param << 1` drops bit 7, hence `% 256`). -/
def asl_on_accumulator (cpu : CPU) : CPU :=
  let param := cpu.a
  let cpu1 := { cpu with flags := { cpu.flags with carry := (param &&& 0b10000000) != 0 } }
  set_a cpu1 ((param <<< 1) % 256)

/-- `asl` (`operations.rs` lines 93-98), the memory-addressing-mode form:
Carry from bit 7 of the operand read at the resolved address, then the
shifted operand is stored through `set_a` — into the accumulator. -/
def asl (mode : AddressingMode) (cpu : CPU) : Option CPU :=
  match operand_address cpu mode with
  | none => none
  | some addr =>
    match mem_read_incr cpu addr with
    | none => none
    | some (param, cpu1) =>
      let cpu2 := { cpu1 with flags := { cpu1.flags with carry := (param &&& 0b10000000) != 0 } }
      some (set_a cpu2 ((param <<< 1) % 256))

/-- `(b as i8) as u16` for a byte `b`: two's-complement sign extension of
an 8-bit value into 16 bits. -/
def signExtend (b : Nat) : Nat :=
  if b < 128 then b else 0xFF00 + b

/-- `branch` (`operations.rs` lines 108-114): when the condition holds,
fetch the displacement byte at `counter` (advancing the counter), then set
`counter := counter.wrapping_add(1).wrapping_add(jump as u16)` with the
advanced counter; otherwise do nothing at all. -/
def branch (condition : Bool) (cpu : CPU) : Option CPU :=
  if condition then
    match mem_read_incr cpu cpu.counter with
    | none => none
    | some (jump, cpu1) =>
      let jumpAddr := ((cpu1.counter + 1) % 65536 + signExtend jump) % 65536
      some { cpu1 with counter := jumpAddr }
  else
    some cpu

/-- `bit` (`operations.rs` lines 124-131): `a &= data`; Zero from the new
accumulator; Negative and Overflow from bits 7 and 6 of the unmasked
operand. -/
def bit (mode : AddressingMode) (cpu : CPU) : Option CPU :=
  match operand_address cpu mode with
  | none => none
  | some addr =>
    match mem_read_incr cpu addr with
    | none => none
    | some (data, cpu1) =>
      let cpu2 := { cpu1 with a := cpu1.a &&& data }
      some { cpu2 with flags := { cpu2.flags with
          zero := cpu2.a == 0
          negative := (data &&& 0b10000000) != 0
          overflow := (data &&& 0b01000000) != 0 } }

/-- `clc` (`operations.rs`): clear Carry. -/
def clc (cpu : CPU) : CPU :=
  { cpu with flags := { cpu.flags with carry := false } }

/-- `cld` (`operations.rs`): clear Decimal. -/
def cld (cpu : CPU) : CPU :=
  { cpu with flags := { cpu.flags with decimal := false } }

/-- `cli` (`operations.rs`): clear InterruptDisable. -/
def cli (cpu : CPU) : CPU :=
  { cpu with flags := { cpu.flags with noInterrupt := false } }

/-- `clv` (`operations.rs`): clear Overflow. -/
def clv (cpu : CPU) : CPU :=
  { cpu with flags := { cpu.flags with overflow := false } }

/-- `u8::wrapping_sub` for byte values. -/
def wrappingSub (a b : Nat) : Nat :=
  (a + (256 - b % 256)) % 256

/-- `cmp` (`operations.rs` lines 171-176; the dispatch loop in
`lifecycle.rs` calls it under the name `compare`): Carry iff the operand is
at most the compared register value; Zero/Negative from the wrapping
difference; no register written. -/
def cmp (mode : AddressingMode) (compare_with : Nat) (cpu : CPU) : Option CPU :=
  match operand_address cpu mode with
  | none => none
  | some addr =>
    match mem_read_incr cpu addr with
    | none => none
    | some (data, cpu1) =>
      let cpu2 := { cpu1 with flags := { cpu1.flags with carry := decide (data ≤ compare_with) } }
      some (update_flags_zero_neg cpu2 (wrappingSub compare_with data))

/-- `lda` (`operations.rs`): load the operand into the accumulator through
`set_a`. -/
def lda (mode : AddressingMode) (cpu : CPU) : Option CPU :=
  match operand_address cpu mode with
  | none => none
  | some addr =>
    match mem_read_incr cpu addr with
    | none => none
    | some (param, cpu1) => some (set_a cpu1 param)

/-- `tax` (`operations.rs`): `x := a`, then zero/negative from `x`. -/
def tax (cpu : CPU) : CPU :=
  let cpu1 := { cpu with x := cpu.a }
  update_flags_zero_neg cpu1 cpu1.x

/-- `inx` (`operations.rs`): `x := x.wrapping_add(1)`, then zero/negative
from `x`. -/
def inx (cpu : CPU) : CPU :=
  let cpu1 := { cpu with x := (cpu.x + 1) % 256 }
  update_flags_zero_neg cpu1 cpu1.x

/-- `sta` (`operations.rs` lines 194-198): write the accumulator to the
resolved address, then `self.counter += 1` — a non-wrapping `u16`
increment. -/
def sta (mode : AddressingMode) (cpu : CPU) : Option CPU :=
  match operand_address cpu mode with
  | none => none
  | some addr =>
    match mem_write cpu addr cpu.a with
    | none => none
    | some cpu1 =>
      match checkedAddU16 cpu1.counter 1 with
      | none => none
      | some c => some { cpu1 with counter := c }

/-- `CPU::new` (`lifecycle.rs`): all registers zero, flags from the
power-up pattern `0b100100`, zero-filled memory. -/
def CPU.new : CPU :=
  { a := 0
    flags := Flags.fromBits 0b100100
    counter := 0
    x := 0
    y := 0
    memory := fun _ => 0 }

/-- `load` (`lifecycle.rs`): copy the program bytes to
`memory[0x8000..0x8000+len]` (an out-of-range slice is a panic, hence the
bound against the 65535-byte array), then write the reset vector `0x8000`
at `0xFFFC`. -/
def load (cpu : CPU) (program : List Nat) : Option CPU :=
  if 0x8000 + program.length ≤ memLen then
    let cpu1 := { cpu with memory := (fun i =>
      if 0x8000 ≤ i ∧ i < 0x8000 + program.length then program.getD (i - 0x8000) 0 % 256
      else cpu.memory i) }
    mem_write_u16 cpu1 0xFFFC 0x8000
  else
    none

/-- `reset` (`lifecycle.rs`): zero the accumulator and `x`, restore the
power-up flags, and set the program counter from the reset vector at
`0xFFFC`. -/
def reset (cpu : CPU) : Option CPU :=
  match mem_read_u16 cpu 0xFFFC with
  | none => none
  | some v => some { cpu with a := 0, x := 0, flags := Flags.fromBits 0b100100, counter := v }

/-- Error message of the dispatch loop's default arm in `lifecycle.rs`. -/
def unknownOpcodeMsg : String := "Unknown opcode found."

/-- Outcome of one iteration of the `run` loop body: return `Ok(())`,
return `Err(..)`, continue with a new state, or hit a Rust panic. -/
inductive StepResult where
  | ok : StepResult
  | err : String → StepResult
  | next : CPU → StepResult
  | crash : StepResult

/-- Lift a fallible handler's result into the loop outcome. -/
def liftStep (o : Option CPU) : StepResult :=
  match o with
  | none => StepResult.crash
  | some cpu => StepResult.next cpu

/-- The dispatch `match op` of `run` (`lifecycle.rs` lines 37-269), acting
on the state after the opcode fetch.  Opcode `0x00` returns `Ok(())`; the
default arm returns the unknown-opcode error.  Note line 154: opcode `0x70`
(labelled BVS in the source comment) passes `!overflow` as the branch
condition, the same condition as BVC at line 151. -/
def execOp (op : Nat) (cpu : CPU) : StepResult :=
  match op with
  | 0x00 => StepResult.ok
  | 0x69 => liftStep (adc .immediate cpu)
  | 0x65 => liftStep (adc .zeroPage cpu)
  | 0x75 => liftStep (adc .zeroPageX cpu)
  | 0x6d => liftStep (adc .absolute cpu)
  | 0x7d => liftStep (adc .absoluteX cpu)
  | 0x79 => liftStep (adc .absoluteY cpu)
  | 0x61 => liftStep (adc .indirectX cpu)
  | 0x71 => liftStep (adc .indirectY cpu)
  | 0x29 => liftStep (and .immediate cpu)
  | 0x25 => liftStep (and .zeroPage cpu)
  | 0x35 => liftStep (and .zeroPageX cpu)
  | 0x2d => liftStep (and .absolute cpu)
  | 0x3d => liftStep (and .absoluteX cpu)
  | 0x39 => liftStep (and .absoluteY cpu)
  | 0x21 => liftStep (and .indirectX cpu)
  | 0x31 => liftStep (and .indirectY cpu)
  | 0x0a => StepResult.next (asl_on_accumulator cpu)
  | 0x06 => liftStep (asl .zeroPage cpu)
  | 0x16 => liftStep (asl .zeroPageX cpu)
  | 0x0e => liftStep (asl .absolute cpu)
  | 0x1e => liftStep (asl .absoluteX cpu)
  | 0x90 => liftStep (branch (!cpu.flags.carry) cpu)
  | 0xb0 => liftStep (branch cpu.flags.carry cpu)
  | 0xf0 => liftStep (branch cpu.flags.zero cpu)
  | 0x24 => liftStep (bit .zeroPage cpu)
  | 0x2c => liftStep (bit .absolute cpu)
  | 0x30 => liftStep (branch cpu.flags.negative cpu)
  | 0xd0 => liftStep (branch (!cpu.flags.zero) cpu)
  | 0x10 => liftStep (branch (!cpu.flags.negative) cpu)
  | 0x50 => liftStep (branch (!cpu.flags.overflow) cpu)
  | 0x70 => liftStep (branch (!cpu.flags.overflow) cpu)
  | 0x18 => StepResult.next (clc cpu)
  | 0xd8 => StepResult.next (cld cpu)
  | 0x58 => StepResult.next (cli cpu)
  | 0xb8 => StepResult.next (clv cpu)
  | 0xc9 => liftStep (cmp .immediate cpu.a cpu)
  | 0xc5 => liftStep (cmp .zeroPage cpu.a cpu)
  | 0xd5 => liftStep (cmp .zeroPageX cpu.a cpu)
  | 0xcd => liftStep (cmp .absolute cpu.a cpu)
  | 0xdd => liftStep (cmp .absoluteX cpu.a cpu)
  | 0xd9 => liftStep (cmp .absoluteY cpu.a cpu)
  | 0xc1 => liftStep (cmp .indirectX cpu.a cpu)
  | 0xd1 => liftStep (cmp .indirectY cpu.a cpu)
  | 0xa9 => liftStep (lda .immediate cpu)
  | 0xa5 => liftStep (lda .zeroPage cpu)
  | 0xb5 => liftStep (lda .zeroPageX cpu)
  | 0xad => liftStep (lda .absolute cpu)
  | 0xbd => liftStep (lda .absoluteX cpu)
  | 0xb9 => liftStep (lda .absoluteY cpu)
  | 0xa1 => liftStep (lda .indirectX cpu)
  | 0xb1 => liftStep (lda .indirectY cpu)
  | 0xaa => StepResult.next (tax cpu)
  | 0xe8 => StepResult.next (inx cpu)
  | 0x85 => liftStep (sta .zeroPage cpu)
  | 0x95 => liftStep (sta .zeroPageX cpu)
  | 0x8d => liftStep (sta .absolute cpu)
  | 0x9d => liftStep (sta .absoluteX cpu)
  | 0x99 => liftStep (sta .absoluteY cpu)
  | 0x81 => liftStep (sta .indirectX cpu)
  | 0x91 => liftStep (sta .indirectY cpu)
  | _ => StepResult.err unknownOpcodeMsg

/-- The opcode bytes with a dispatch arm in `run` (`lifecycle.rs`). -/
def knownOpcodes : List Nat :=
  [0x00,
   0x69, 0x65, 0x75, 0x6d, 0x7d, 0x79, 0x61, 0x71,
   0x29, 0x25, 0x35, 0x2d, 0x3d, 0x39, 0x21, 0x31,
   0x0a, 0x06, 0x16, 0x0e, 0x1e,
   0x90, 0xb0, 0xf0, 0x24, 0x2c, 0x30, 0xd0, 0x10, 0x50, 0x70,
   0x18, 0xd8, 0x58, 0xb8,
   0xc9, 0xc5, 0xd5, 0xcd, 0xdd, 0xd9, 0xc1, 0xd1,
   0xa9, 0xa5, 0xb5, 0xad, 0xbd, 0xb9, 0xa1, 0xb1,
   0xaa, 0xe8,
   0x85, 0x95, 0x8d, 0x9d, 0x99, 0x81, 0x91]

/-- One iteration of the `run` loop: fetch the opcode at the program
counter (advancing it by one), then dispatch. -/
def step (cpu : CPU) : StepResult :=
  match mem_read_incr cpu cpu.counter with
  | none => StepResult.crash
  | some (op, cpu1) => execOp op cpu1

/-- Result of running the loop with bounded fuel (the Rust loop may run
forever; `fuelOut` marks exhaustion of the bound and never arises from the
source's own control flow). -/
inductive RunResult where
  | ok : RunResult
  | err : String → RunResult
  | crash : RunResult
  | fuelOut : RunResult
  deriving DecidableEq, Repr

/-- `run` (`lifecycle.rs`): iterate `step` until `Ok`, `Err`, or a panic. -/
def run (fuel : Nat) (cpu : CPU) : RunResult :=
  match fuel with
  | 0 => RunResult.fuelOut
  | fuel + 1 =>
    match step cpu with
    | StepResult.ok => RunResult.ok
    | StepResult.err m => RunResult.err m
    | StepResult.crash => RunResult.crash
    | StepResult.next cpu1 => run fuel cpu1

/-- `load_and_run` (`lifecycle.rs`): `load`, `reset`, `run`. -/
def load_and_run (cpu : CPU) (program : List Nat) (fuel : Nat) : RunResult :=
  match load cpu program with
  | none => RunResult.crash
  | some cpu1 =>
    match reset cpu1 with
    | none => RunResult.crash
    | some cpu2 => run fuel cpu2

/-! ## Concrete states used by witnesses and counterexamples -/

/-- A state about to execute a memory-mode ASL: the zero-page operand byte
`0x10` at the program counter, and the value `0x81` in cell `0x0010`. -/
def cpuAslZp : CPU :=
  { CPU.new with counter := 0x8000
                 memory := fun i => if i = 0x8000 then 0x10 else if i = 0x10 then 0x81 else 0 }

/-- A state whose program counter sits on a displacement byte `0x0A`
(at `0x8001`, the byte after a branch opcode at `0x8000`). -/
def cpuBranchDisp : CPU :=
  { CPU.new with counter := 0x8001
                 memory := fun i => if i = 0x8000 then 0x90 else if i = 0x8001 then 0x0a else 0 }

/-- A state about to execute opcode `0x70` (BVS) with displacement `0x0A`,
with the Overflow flag given by `b`. -/
def cpuBvs (b : Bool) : CPU :=
  { CPU.new with counter := 0x8000
                 flags := { Flags.fromBits 0b100100 with overflow := b }
                 memory := fun i => if i = 0x8000 then 0x70 else if i = 0x8001 then 0x0a else 0 }

/-- A state about to execute opcode `0x90` (BCC) with the Carry flag set,
so the branch condition is false. -/
def cpuBccCarry : CPU :=
  { CPU.new with counter := 0x8000
                 flags := { Flags.fromBits 0b100100 with carry := true }
                 memory := fun i => if i = 0x8000 then 0x90 else if i = 0x8001 then 0x0a else 0 }

/-- A memory stream of `0xFF` bytes (an opcode with no dispatch arm). -/
def cpuUnknownOp : CPU :=
  { CPU.new with memory := fun _ => 0xFF }

/-- A state about to execute a CMP-style compare with immediate operand
`0x01` at the program counter. -/
def cpuCmpOne : CPU :=
  { CPU.new with counter := 0x8000
                 memory := fun i => if i = 0x8000 then 0x01 else 0 }

/-- A state about to execute a BIT test with zero-page operand pointer
`0x10` and value `0xC0` in cell `0x0010`, accumulator `0xFF`. -/
def cpuBitZp : CPU :=
  { CPU.new with a := 0xFF
                 counter := 0x8000
                 memory := fun i => if i = 0x8000 then 0x10 else if i = 0x10 then 0xC0 else 0 }

/-- The counter extracted from a `next` loop outcome. -/
def nextCounter (r : StepResult) : Option Nat :=
  match r with
  | StepResult.next cpu => some cpu.counter
  | _ => none

/-! ## Shared lemmas -/

theorem mem_read_incr_of_read {cpu : CPU} {addr v : Nat} (h : mem_read cpu addr = some v) :
    mem_read_incr cpu addr = some (v, { cpu with counter := (cpu.counter + 1) % 65536 }) := by
  simp [mem_read_incr, h]

theorem liftStep_eq_ok_iff (o : Option CPU) : liftStep o = StepResult.ok ↔ False := by
  cases o <;> simp [liftStep]

theorem beq_eq_decide_eq_nat (a b : Nat) : (a == b) = decide (a = b) := by
  by_cases h : a = b <;> simp [h]

theorem bne_zero_and_two_pow (v i : Nat) : ((v &&& 2 ^ i) != 0) = v.testBit i := by
  have h := Nat.and_two_pow v i
  cases hb : v.testBit i <;> simp [h, hb, Nat.pos_pow_of_pos]

theorem bne_zero_and_128 (v : Nat) : ((v &&& 128) != 0) = v.testBit 7 := by
  simpa using bne_zero_and_two_pow v 7

theorem bne_zero_and_64 (v : Nat) : ((v &&& 64) != 0) = v.testBit 6 := by
  simpa using bne_zero_and_two_pow v 6

/-! ## Claim theorems -/

/-- C9: for every value `v`, the zero/negative flag updater sets the Zero
flag to `v == 0` and the Negative flag to bit 7 of `v`, and leaves the
other six flag bits — and every register and the memory — unchanged. -/
theorem update_flags_zero_neg_spec (cpu : CPU) (v : Nat) :
    (update_flags_zero_neg cpu v).flags.zero = decide (v = 0) ∧
    (update_flags_zero_neg cpu v).flags.negative = v.testBit 7 ∧
    (update_flags_zero_neg cpu v).flags.carry = cpu.flags.carry ∧
    (update_flags_zero_neg cpu v).flags.noInterrupt = cpu.flags.noInterrupt ∧
    (update_flags_zero_neg cpu v).flags.decimal = cpu.flags.decimal ∧
    (update_flags_zero_neg cpu v).flags.break1 = cpu.flags.break1 ∧
    (update_flags_zero_neg cpu v).flags.break2 = cpu.flags.break2 ∧
    (update_flags_zero_neg cpu v).flags.overflow = cpu.flags.overflow ∧
    (update_flags_zero_neg cpu v).a = cpu.a ∧
    (update_flags_zero_neg cpu v).counter = cpu.counter ∧
    (update_flags_zero_neg cpu v).x = cpu.x ∧
    (update_flags_zero_neg cpu v).y = cpu.y ∧
    (update_flags_zero_neg cpu v).memory = cpu.memory := by
  refine ⟨?_, ?_, rfl, rfl, rfl, rfl, rfl, rfl, rfl, rfl, rfl, rfl, rfl⟩
  · simpa [update_flags_zero_neg] using beq_eq_decide_eq_nat v 0
  · simpa [update_flags_zero_neg] using bne_zero_and_128 v

/-- C5: `add_to_a` computes the widened sum of the accumulator, the
operand and the carry bit; Carry iff the sum exceeds 255; Overflow from
the two's-complement test on the truncated result against the old
accumulator; the truncated result lands in the accumulator with Zero and
Negative recomputed from it, everything else untouched.  In particular
`a = 0x7F, d = 0x01, carry clear` gives `0x80` with Overflow set and Carry
clear, and `a = 0xFF, d = 0x01, carry clear` gives `0x00` with Carry set
and Overflow clear. -/
theorem add_to_a_spec :
    (∀ (cpu : CPU) (d : Nat),
      (add_to_a cpu d).a = (cpu.a + d + (if cpu.flags.carry then 1 else 0)) % 256 ∧
      (add_to_a cpu d).flags.carry =
        decide (255 < cpu.a + d + (if cpu.flags.carry then 1 else 0)) ∧
      (add_to_a cpu d).flags.overflow =
        (((d ^^^ (cpu.a + d + (if cpu.flags.carry then 1 else 0)) % 256) &&&
          ((cpu.a + d + (if cpu.flags.carry then 1 else 0)) % 256 ^^^ cpu.a) &&& 0x80) != 0) ∧
      (add_to_a cpu d).flags.zero =
        decide ((cpu.a + d + (if cpu.flags.carry then 1 else 0)) % 256 = 0) ∧
      (add_to_a cpu d).flags.negative =
        ((cpu.a + d + (if cpu.flags.carry then 1 else 0)) % 256).testBit 7 ∧
      (add_to_a cpu d).x = cpu.x ∧
      (add_to_a cpu d).y = cpu.y ∧
      (add_to_a cpu d).counter = cpu.counter ∧
      (add_to_a cpu d).memory = cpu.memory) ∧
    ((add_to_a { CPU.new with a := 0x7F } 0x01).a = 0x80 ∧
     (add_to_a { CPU.new with a := 0x7F } 0x01).flags.overflow = true ∧
     (add_to_a { CPU.new with a := 0x7F } 0x01).flags.carry = false) ∧
    ((add_to_a { CPU.new with a := 0xFF } 0x01).a = 0x00 ∧
     (add_to_a { CPU.new with a := 0xFF } 0x01).flags.carry = true ∧
     (add_to_a { CPU.new with a := 0xFF } 0x01).flags.overflow = false) := by
  refine ⟨fun cpu d => ⟨?_, ?_, ?_, ?_, ?_, rfl, rfl, rfl, rfl⟩, ⟨rfl, rfl, rfl⟩, ⟨rfl, rfl, rfl⟩⟩
  · rfl
  · simp [add_to_a, set_a, update_flags_zero_neg]
  · rfl
  · simpa [add_to_a, set_a, update_flags_zero_neg] using
      beq_eq_decide_eq_nat ((cpu.a + d + (if cpu.flags.carry then 1 else 0)) % 256) 0
  · simpa [add_to_a, set_a, update_flags_zero_neg] using
      bne_zero_and_128 ((cpu.a + d + (if cpu.flags.carry then 1 else 0)) % 256)

/-- C3 (exhibiting the code bug): the backing array is `[u8; 0xFFFF]` — 65535
cells, so address `0xFFFF` is out of bounds — and the second address of a
16-bit access is computed with non-wrapping `+`.  A 16-bit read at
`0xFFFE` indexes `memory[0xFFFF]`, past the end of the array, and one at
`0xFFFF` additionally overflows `addr + 1`; both panic (`none`) instead of
wrapping. -/
theorem mem_read_u16_at_top_panics :
    mem_read_u16 CPU.new 0xFFFE = none ∧
    mem_read_u16 CPU.new 0xFFFF = none ∧
    mem_read CPU.new 0xFFFE = some 0 ∧
    mem_read CPU.new 0xFFFF = none ∧
    checkedAddU16 0xFFFF 1 = none := by
  refine ⟨?_, ?_, ?_, ?_, ?_⟩ <;> decide

/-- C1 (against the claim): a memory-mode ASL (here ZeroPage, opcode
`0x06` semantics) does not write the shifted result to the resolved
address.  With `0x81` at resolved address `0x0010`, the cell still holds
`0x81` afterwards, while the accumulator holds the shifted result `0x02`
(Carry did receive bit 7 of the operand). -/
theorem asl_mem_mode_cex :
    Option.map (fun c => (c.memory 0x10, c.a, c.flags.carry)) (asl AddressingMode.zeroPage cpuAslZp) =
      some (0x81, 0x02, true) ∧
    (0x81 : Nat) ≠ 0x02 := by
  exact ⟨rfl, by decide⟩

/-- C1 (amended): for every memory-mode ASL with resolved address `addr`
holding operand `param`, the Carry flag becomes bit 7 of the operand, and
the shifted result `(param << 1) & 0xFF` is stored in the accumulator via
the `set_a` path (Zero/Negative from the result); memory is left
unchanged, and the operand fetch advances the program counter by one. -/
theorem asl_mem_mode_spec (cpu : CPU) (mode : AddressingMode) (addr param : Nat)
    (h1 : operand_address cpu mode = some addr) (h2 : mem_read cpu addr = some param) :
    asl mode cpu = some { cpu with
      counter := (cpu.counter + 1) % 65536
      a := (param <<< 1) % 256
      flags := { cpu.flags with
        carry := param.testBit 7
        zero := decide ((param <<< 1) % 256 = 0)
        negative := ((param <<< 1) % 256).testBit 7 } } := by
  simp [asl, h1, mem_read_incr_of_read h2, set_a, update_flags_zero_neg,
    bne_zero_and_128, beq_eq_decide_eq_nat]

/-- Witness for C1's amended theorem at the concrete state of the
counterexample. -/
theorem asl_mem_mode_spec_witness :
    asl AddressingMode.zeroPage cpuAslZp = some { cpuAslZp with
      counter := 0x8001
      a := 0x02
      flags := { cpuAslZp.flags with carry := true, zero := false, negative := false } } :=
  asl_mem_mode_spec cpuAslZp AddressingMode.zeroPage 0x10 0x81 rfl rfl

/-- C4 (against the claim): a taken branch with displacement byte `0x0A`
leaves the program counter `0x0C` past the address of the byte after the
opcode (the displacement byte itself), not `0x0B`: from `cpuBranchDisp`
(counter `0x8001`, the displacement byte's address) the taken branch lands
at `0x800D`, and `0x800D ≠ 0x8001 + 0x0B`. -/
theorem branch_taken_cex :
    Option.map (fun c => c.counter) (branch true cpuBranchDisp) = some 0x800D ∧
    (0x800D : Nat) ≠ (0x8001 + 0x0B) % 65536 := by
  exact ⟨rfl, by decide⟩

/-- C4 (amended): for every taken branch reading displacement byte `d` at
the current program counter, the new program counter is the wrapping
16-bit sum of the program counter as advanced past the displacement byte,
1, and the sign-extended displacement — i.e. `0x0C` (not `0x0B`) past the
displacement byte's address for `d = 0x0A`. -/
theorem branch_taken_spec (cpu : CPU) (d : Nat) (h : mem_read cpu cpu.counter = some d) :
    branch true cpu = some { cpu with
      counter := (((cpu.counter + 1) % 65536 + 1) % 65536 + signExtend d) % 65536 } := by
  simp [branch, mem_read_incr_of_read h]

/-- Witness for C4's amended theorem at the concrete state of the
counterexample. -/
theorem branch_taken_spec_witness :
    branch true cpuBranchDisp = some { cpuBranchDisp with counter := 0x800D } :=
  branch_taken_spec cpuBranchDisp 0x0A rfl

/-- C2 (exhibiting the code bug): opcode `0x70` — the
arm the source comments label `BVS - Branch if Overflow Set` — dispatches
`branch(!overflow)`, the BVC condition.  With Overflow set the branch is
not taken (the counter stops at the displacement byte, `0x8001`); with
Overflow clear the branch is taken (the counter lands at `0x800D`). -/
theorem bvs_branches_on_overflow_clear :
    nextCounter (step (cpuBvs true)) = some 0x8001 ∧
    nextCounter (step (cpuBvs false)) = some 0x800D := by
  exact ⟨rfl, rfl⟩

/-- C7: BIT with resolved operand `m` and prior accumulator `a` stores
`a &&& m` in the accumulator, sets Zero iff `a &&& m = 0`, Negative to
bit 7 of the unmasked operand, Overflow to bit 6 of the unmasked operand;
the other flags, registers and memory are untouched (the operand fetch
advances the program counter by one). -/
theorem bit_spec (cpu : CPU) (mode : AddressingMode) (addr m : Nat)
    (h1 : operand_address cpu mode = some addr) (h2 : mem_read cpu addr = some m) :
    bit mode cpu = some { cpu with
      counter := (cpu.counter + 1) % 65536
      a := cpu.a &&& m
      flags := { cpu.flags with
        zero := decide (cpu.a &&& m = 0)
        negative := m.testBit 7
        overflow := m.testBit 6 } } := by
  simp [bit, h1, mem_read_incr_of_read h2, bne_zero_and_128, bne_zero_and_64,
    beq_eq_decide_eq_nat]

/-- Witness for C7 at a concrete state: `a = 0xFF`, operand `0xC0` at
zero-page address `0x10`. -/
theorem bit_spec_witness :
    bit AddressingMode.zeroPage cpuBitZp = some { cpuBitZp with
      counter := 0x8001
      a := 0xC0
      flags := { cpuBitZp.flags with zero := false, negative := true, overflow := true } } :=
  bit_spec cpuBitZp AddressingMode.zeroPage 0x10 0xC0 rfl rfl

/-- C8: a CMP-family compare of register value `r` against resolved
operand `m` sets Carry iff `m ≤ r`, computes Zero and Negative from the
wrapping 8-bit difference `r - m`, and mutates no register: accumulator,
`x`, `y` and the memory are unchanged in the resulting state (only the
program counter advances with the operand fetch). -/
theorem cmp_spec (cpu : CPU) (mode : AddressingMode) (r addr m : Nat)
    (h1 : operand_address cpu mode = some addr) (h2 : mem_read cpu addr = some m) :
    cmp mode r cpu = some { cpu with
      counter := (cpu.counter + 1) % 65536
      flags := { cpu.flags with
        carry := decide (m ≤ r)
        zero := decide (wrappingSub r m = 0)
        negative := (wrappingSub r m).testBit 7 } } := by
  simp [cmp, h1, mem_read_incr_of_read h2, update_flags_zero_neg,
    bne_zero_and_128, beq_eq_decide_eq_nat]

/-- Witness for C8 at the spec's concrete instance: register value `0x2`
against operand `0x1` sets Carry (and clears Zero/Negative from the
difference `0x1`). -/
theorem cmp_spec_witness :
    cmp AddressingMode.immediate 0x2 cpuCmpOne = some { cpuCmpOne with
      counter := 0x8001
      flags := { cpuCmpOne.flags with carry := true, zero := false, negative := false } } :=
  cmp_spec cpuCmpOne AddressingMode.immediate 0x2 0x8000 0x01 rfl rfl

/-- C10: a branch whose condition is false is a complete no-op — the
handler returns the state unchanged (registers, flags, program counter and
memory all equal), so the program counter is not advanced past the
displacement byte; at the loop level, a not-taken branch opcode (here
`0x90` with Carry set) leaves the next iteration fetching its opcode at
the displacement byte's address `counter + 1`. -/
theorem branch_not_taken_frame :
    (∀ cpu : CPU, branch false cpu = some cpu) ∧
    (∀ cpu : CPU, cpu.counter < memLen → cpu.memory cpu.counter % 256 = 0x90 →
      cpu.flags.carry = true →
      step cpu = StepResult.next { cpu with counter := (cpu.counter + 1) % 65536 }) := by
  constructor
  · intro cpu
    rfl
  · intro cpu hlt hmem hcarry
    have hread : mem_read cpu cpu.counter = some 0x90 := by
      simp [mem_read, hlt, hmem]
    have hstep : step cpu = execOp 0x90 { cpu with counter := (cpu.counter + 1) % 65536 } := by
      unfold step
      rw [mem_read_incr_of_read hread]
    have hexec : execOp 0x90 { cpu with counter := (cpu.counter + 1) % 65536 } =
        liftStep (branch (!cpu.flags.carry) { cpu with counter := (cpu.counter + 1) % 65536 }) :=
      rfl
    rw [hstep, hexec, hcarry]
    rfl

/-- Witness for C10 at a concrete state: opcode `0x90` (BCC) under a set
Carry flag leaves everything but the opcode fetch unchanged. -/
theorem branch_not_taken_frame_witness :
    step cpuBccCarry = StepResult.next { cpuBccCarry with counter := 0x8001 } :=
  branch_not_taken_frame.2 cpuBccCarry (by decide) rfl rfl

theorem execOp_ok_iff (op : Nat) (cpu : CPU) : execOp op cpu = StepResult.ok ↔ op = 0 := by
  unfold execOp
  split <;> simp [liftStep_eq_ok_iff]
  exact fun h0 => ‹op = 0 → False› h0

theorem execOp_unknown (op : Nat) (cpu : CPU) (h : op ∉ knownOpcodes) :
    execOp op cpu = StepResult.err unknownOpcodeMsg := by
  unfold execOp
  split <;> first
    | rfl
    | simp_all [knownOpcodes]

/-- C6: at each loop iteration, `run` returns `Ok(())` exactly when the
opcode byte fetched at the program counter is `0x00`; any fetched opcode
outside the dispatch table makes it return the descriptive unknown-opcode
error to the caller (never a panic of the loop itself); in particular the
program `[0xFF]` through `load_and_run` yields that error rather than a
silent successful halt. -/
theorem run_dispatch_spec :
    (∀ (cpu cpu1 : CPU) (op : Nat), mem_read_incr cpu cpu.counter = some (op, cpu1) →
      (step cpu = StepResult.ok ↔ op = 0)) ∧
    (∀ (cpu cpu1 : CPU) (op : Nat), mem_read_incr cpu cpu.counter = some (op, cpu1) →
      op ∉ knownOpcodes → step cpu = StepResult.err unknownOpcodeMsg) ∧
    load_and_run CPU.new [0xFF] 1 = RunResult.err unknownOpcodeMsg := by
  refine ⟨?_, ?_, ?_⟩
  · intro cpu cpu1 op h
    unfold step
    rw [h]
    exact execOp_ok_iff op cpu1
  · intro cpu cpu1 op h hn
    unfold step
    rw [h]
    exact execOp_unknown op cpu1 hn
  · rfl

/-- Witness for C6: an all-zero memory makes the first fetched opcode
`0x00` and the loop succeed; an all-`0xFF` memory makes it the unknown
opcode `0xFF` and the loop fail with the descriptive error. -/
theorem run_dispatch_spec_witness :
    step CPU.new = StepResult.ok ∧ step cpuUnknownOp = StepResult.err unknownOpcodeMsg := by
  constructor
  · exact (run_dispatch_spec.1 CPU.new
      { CPU.new with counter := (CPU.new.counter + 1) % 65536 } 0 rfl).mpr rfl
  · exact run_dispatch_spec.2.1 cpuUnknownOp
      { cpuUnknownOp with counter := (cpuUnknownOp.counter + 1) % 65536 } 0xFF rfl (by decide)

end Nes
